import Mathlib

/-!
Verification development for the NHL fantasy-stats ingestion pipeline.

The definitions below are a shallow embedding of the Python sources:
  - `src/src/api/helpers.py` (time-on-ice parsing, fantasy scoring, opponent
    resolution),
  - `src/src/api/player_stats_fetcher.py` (the `PlayerStatsProcessor`
    orchestrator: partition, merge, persist, incremental aggregate update),
  - `src/src/api/nhl_api_utils.py` (schedule fetching and de-duplication),
  - `src/scripts/seed_pro_players.py` (full rebuild of season aggregates),
  - `src/src/core/constants.py` (weights and static configuration).

Numeric modelling: Python floats are modelled by exact rationals (`ℚ`);
`round(x, 2)` is modelled by round-half-to-even at two decimals, which is
the documented Python rounding mode.  Python dicts are modelled by association
lists with insert-or-replace semantics; dict keys that are `str(game_id)` in
the source are modelled by the (injectively corresponding) numeric id.
-/

namespace NHLFantasy

/-- Python `round` ties-to-even, on an exact rational: the nearest integer,
with ties resolved to the even neighbour.  Computed on the numerator and
denominator so that concrete instances evaluate in the kernel:
`f` is the floor and `r2` is twice the denominator-scaled fractional part. -/
def roundHalfEven (q : ℚ) : ℤ :=
  let n := q.num
  let d := (q.den : ℤ)
  let f := Int.ediv n d
  let r2 := 2 * n - 2 * d * f
  if r2 < d then f
  else if d < r2 then f + 1
  else if f % 2 = 0 then f else f + 1

/-- Python `round(x, 2)` on an exact rational. -/
def round2py (x : ℚ) : ℚ := (roundHalfEven (x * 100) : ℚ) / 100

/-! ## constants.py -/

/-- `constants.SEASON_ID` (default environment value). -/
def SEASON_ID : String := "20252026"

/-- `constants.WIN_DECISION`. -/
def WIN_DECISION : String := "W"

/-- `constants.LOSS_DECISION`. -/
def LOSS_DECISION : String := "L"

/-- `constants.OT_LOSS_DECISION`. -/
def OT_LOSS_DECISION : String := "O"

/-- `constants.GOALIE_POSITIONS` (a one-element set). -/
def GOALIE_POSITIONS : List String := ["G"]

/-- `constants.SKATER_FPTS_WEIGHTS`, field per dict key. -/
structure SkaterWeights where
  goals : ℚ
  assists : ℚ
  ppPoints : ℚ
  shPoints : ℚ
  shots : ℚ
  blockedShots : ℚ
  hits : ℚ

/-- `constants.SKATER_FPTS_WEIGHTS` literal values. -/
def SKATER_FPTS_WEIGHTS : SkaterWeights :=
  { goals := 2
    assists := 1
    ppPoints := 1 / 2
    shPoints := 1 / 2
    shots := 1 / 10
    blockedShots := 1 / 2
    hits := 1 / 10 }

/-- `constants.GOALIE_FPTS_WEIGHTS`, field per dict key. -/
structure GoalieWeights where
  wins : ℚ
  goalsAgainst : ℚ
  saves : ℚ
  shutouts : ℚ
  otLosses : ℚ

/-- `constants.GOALIE_FPTS_WEIGHTS` literal values. -/
def GOALIE_FPTS_WEIGHTS : GoalieWeights :=
  { wins := 4
    goalsAgainst := -2
    saves := 1 / 5
    shutouts := 3
    otLosses := 1 }

/-- `constants.TEAM_MAP`: abbreviation to full team name. -/
def TEAM_MAP : List (String × String) :=
  [("BOS", "Boston Bruins"), ("BUF", "Buffalo Sabres"), ("CGY", "Calgary Flames"),
   ("CHI", "Chicago Blackhawks"), ("DET", "Detroit Red Wings"), ("EDM", "Edmonton Oilers"),
   ("CAR", "Carolina Hurricanes"), ("LAK", "Los Angeles Kings"), ("DAL", "Dallas Stars"),
   ("MTL", "Montreal Canadiens"), ("NJD", "New Jersey Devils"), ("NYI", "New York Islanders"),
   ("NYR", "New York Rangers"), ("OTT", "Ottawa Senators"), ("PHI", "Philadelphia Flyers"),
   ("PIT", "Pittsburgh Penguins"), ("COL", "Colorado Avalanche"), ("SJS", "San Jose Sharks"),
   ("STL", "St. Louis Blues"), ("TBL", "Tampa Bay Lightning"), ("TOR", "Toronto Maple Leafs"),
   ("VAN", "Vancouver Canucks"), ("WSH", "Washington Capitals"), ("ANA", "Anaheim Ducks"),
   ("FLA", "Florida Panthers"), ("NSH", "Nashville Predators"), ("WPG", "Winnipeg Jets"),
   ("CBJ", "Columbus Blue Jackets"), ("MIN", "Minnesota Wild"), ("VGK", "Vegas Golden Knights"),
   ("SEA", "Seattle Kraken"), ("UTA", "Utah Hockey Club")]

/-- `constants.NHL_TEAMS`. -/
def NHL_TEAMS : List String :=
  ["ANA", "BOS", "BUF", "CGY", "CAR", "CHI", "COL", "CBJ", "DAL", "DET", "EDM",
   "FLA", "LAK", "MIN", "MTL", "NSH", "NJD", "NYI", "NYR", "OTT", "PHI", "PIT",
   "SJS", "SEA", "STL", "TBL", "TOR", "UTA", "VAN", "VGK", "WSH", "WPG"]

/-- Association-list lookup, modelling Python `dict.get` on integer keys. -/
def alookup {β : Type} (k : Nat) : List (Nat × β) → Option β
  | [] => none
  | (k', v) :: rest => if k = k' then some v else alookup k rest

/-- Association-list lookup on string keys, modelling Python `dict.get`. -/
def slookup {β : Type} (k : String) : List (String × β) → Option β
  | [] => none
  | (k', v) :: rest => if k = k' then some v else slookup k rest

/-! ## api/models.py -/

/-- `TeamInfoAPI`: basic team info carried by a boxscore.  The source field
is named `abbrev`, a Lean keyword, so it is rendered `abbr` here. -/
structure TeamInfoAPI where
  abbr : String
deriving DecidableEq

/-- `PlayerStatsFromBoxscore`: one skater stat block in a boxscore
(`name` holds the `{"default": ...}` entry). -/
structure PlayerStatsFromBoxscore where
  playerId : Nat
  name : String
  position : String
  goals : Int := 0
  assists : Int := 0
  sog : Int := 0
  blockedShots : Int := 0
  hits : Int := 0
  sweaterNumber : Option Int := none
deriving DecidableEq

/-- `GoalieStatsFromBoxscore`: one goalie stat block in a boxscore. -/
structure GoalieStatsFromBoxscore where
  playerId : Nat
  name : String
  position : String
  saves : Int := 0
  savePctg : ℚ := 0
  goalsAgainst : Int := 0
  decision : Option String := none
  sweaterNumber : Option Int := none
deriving DecidableEq

/-- `TeamStatsFromBoxscore`: per-team roster stat lists. -/
structure TeamStatsFromBoxscore where
  forwards : List PlayerStatsFromBoxscore := []
  defense : List PlayerStatsFromBoxscore := []
  goalies : List GoalieStatsFromBoxscore := []
deriving DecidableEq

/-- `PlayerStatsByTeam`. -/
structure PlayerStatsByTeam where
  awayTeam : TeamStatsFromBoxscore
  homeTeam : TeamStatsFromBoxscore
deriving DecidableEq

/-- `GameBoxscoreResponse`. -/
structure GameBoxscoreResponse where
  id : Nat
  gameDate : String
  awayTeam : TeamInfoAPI
  homeTeam : TeamInfoAPI
  playerByGameStats : PlayerStatsByTeam
deriving DecidableEq

/-- `FinalPlayerGameStats`: the (game, player) reconciliation record.
Origin-A fields (from the player-log feed) are set at creation;
origin-B fields (from the boxscore feed) keep the listed defaults —
in particular the placeholder `name`/`position` value `"N/A"` — until
`merge_skater_stats` / `merge_goalie_stats` runs. -/
structure FinalPlayerGameStats where
  playerId : Nat
  gameId : Nat
  teamAbbrev : String
  gameDate : String
  powerPlayPoints : Int := 0
  shorthandedPoints : Int := 0
  toi : String := "00:00"
  shifts : Int := 0
  pim : Int := 0
  name : String := "N/A"
  position : String := "N/A"
  goals : Int := 0
  assists : Int := 0
  sog : Int := 0
  blockedShots : Int := 0
  hits : Int := 0
  sweaterNumber : Option Int := none
  saves : Option Int := none
  savePctg : Option ℚ := none
  goalsAgainst : Option Int := none
  decision : Option String := none
deriving DecidableEq

/-! ## api/helpers.py -/

/-- Decimal-digit run parser: `some n` when the characters are a nonempty
run of decimal digits. -/
def parseDigits : List Char → Option Nat
  | [] => none
  | cs => cs.foldl (fun acc c => acc.bind fun n =>
      if c.isDigit then some (n * 10 + (c.toNat - 48)) else none) (some 0)

/-- Python `int(str)` on the common grammar: an optional sign followed by a
nonempty run of decimal digits (whitespace, underscores and non-ASCII digits
elided from the model). -/
def pyInt : List Char → Option Int
  | '-' :: rest => (parseDigits rest).map (fun n => -(n : Int))
  | '+' :: rest => (parseDigits rest).map (fun n => (n : Int))
  | cs => (parseDigits cs).map (fun n => (n : Int))

/-- Python `str.split(":")` over the character list. -/
def splitOnColon : List Char → List (List Char)
  | [] => [[]]
  | c :: rest =>
    match splitOnColon rest with
    | [] => [[c]]
    | h :: t => if c = ':' then [] :: h :: t else (c :: h) :: t

/-- `helpers.toi_to_seconds`: `minutes, seconds = map(int, toi_str.split(":"))`
returning `minutes*60 + seconds`, with any exception (wrong number of fields,
non-integer field) caught and turned into `0`. -/
def toi_to_seconds (toi_str : String) : Int :=
  match splitOnColon toi_str.data with
  | [m, s] =>
    match pyInt m, pyInt s with
    | some minutes, some seconds => minutes * 60 + seconds
    | _, _ => 0
  | _ => 0

/-- `helpers.calculate_fantasy_points_skater`: the weighted linear skater
formula over `constants.SKATER_FPTS_WEIGHTS`, rounded to 2 decimals. -/
def calculate_fantasy_points_skater (stats : FinalPlayerGameStats) : ℚ :=
  let weights := SKATER_FPTS_WEIGHTS
  let fpts :=
    (stats.goals : ℚ) * weights.goals
    + (stats.assists : ℚ) * weights.assists
    + (stats.powerPlayPoints : ℚ) * weights.ppPoints
    + (stats.shorthandedPoints : ℚ) * weights.shPoints
    + (stats.sog : ℚ) * weights.shots
    + (stats.blockedShots : ℚ) * weights.blockedShots
    + (stats.hits : ℚ) * weights.hits
  round2py fpts

/-- `helpers.calculate_fantasy_points_goalie`: boolean-as-integer flags
(`wins`, `ot_losses`, `shutouts`) then the weighted linear goalie formula over
`constants.GOALIE_FPTS_WEIGHTS`, rounded to 2 decimals.  `stats.decision == WIN_DECISION`
is Python equality of an `Optional[str]` with a string (`None` compares unequal);
`stats.goalsAgainst == 0` likewise; `stats.saves or 0` / `stats.goalsAgainst or 0`
turn `None` into `0` in the sum. -/
def calculate_fantasy_points_goalie (stats : FinalPlayerGameStats) : ℚ :=
  let weights := GOALIE_FPTS_WEIGHTS
  let wins : Int := if stats.decision = some WIN_DECISION then 1 else 0
  let ot_losses : Int := if stats.decision = some OT_LOSS_DECISION then 1 else 0
  let shutouts : Int :=
    if stats.goalsAgainst = some 0 ∧ 0 < stats.saves.getD 0 then 1 else 0
  let fpts :=
    (wins : ℚ) * weights.wins
    + ((stats.goalsAgainst.getD 0 : Int) : ℚ) * weights.goalsAgainst
    + ((stats.saves.getD 0 : Int) : ℚ) * weights.saves
    + (shutouts : ℚ) * weights.shutouts
    + (ot_losses : ℚ) * weights.otLosses
  round2py fpts

/-- `helpers.get_opponent_abbrev`: the boxscore side that the recorded team of
the player does not equal. -/
def get_opponent_abbrev (boxscore : GameBoxscoreResponse) (team_abbrev : String) : String :=
  if team_abbrev = boxscore.homeTeam.abbr then boxscore.awayTeam.abbr
  else boxscore.homeTeam.abbr

/-! ## database/models.py output rows -/

/-- `PlayerGameStats`: one skater row per (game, player). -/
structure PlayerGameStats where
  game_id : Nat
  player_id : Nat
  season : String
  game_date : String
  team_abbrev : String
  team_name : String
  opponent_abbrev : String
  opponent_name : String
  player_name : Option String := none
  jersey_number : Option Int := none
  position : Option String := none
  goals : Int := 0
  assists : Int := 0
  pp_points : ℚ := 0
  sh_points : ℚ := 0
  shots : Int := 0
  shooting_pct : Option ℚ := none
  blocked_shots : Int := 0
  hits : Int := 0
  toi_seconds : Int := 0
  shifts : Int := 0
  total_fpts : ℚ := 0
deriving DecidableEq

/-- `GoalieGameStats`: one goalie row per (game, player). -/
structure GoalieGameStats where
  game_id : Nat
  player_id : Nat
  season : String
  game_date : String
  team_abbrev : String
  team_name : String
  opponent_abbrev : String
  opponent_name : String
  player_name : Option String := none
  jersey_number : Option Int := none
  position : Option String := none
  saves : Int := 0
  save_pct : ℚ := 0
  goals_against : Int := 0
  decision : Option String := none
  wins : Int := 0
  shutouts : Int := 0
  ot_losses : Int := 0
  total_fpts : ℚ := 0
deriving DecidableEq

/-- `ProPlayers`: the per-player season-aggregate row, with the column defaults of the source. -/
structure ProPlayers where
  player_id : Nat
  player_name : String
  team_abbrev : Option String := none
  position : Option String := none
  jersey_number : Option Int := none
  is_active : Bool := true
  is_goalie : Bool := false
  season_games_played : Int := 0
  season_total_fpts : ℚ := 0
  season_goals : Int := 0
  season_assists : Int := 0
  season_pp_points : ℚ := 0
  season_sh_points : ℚ := 0
  season_shots : Int := 0
  season_blocked_shots : Int := 0
  season_hits : Int := 0
  season_wins : Int := 0
  season_shutouts : Int := 0
  season_ot_losses : Int := 0
  season_saves : Int := 0
  season_goals_against : Int := 0
deriving DecidableEq

/-! ## player_stats_fetcher.py: partition phase -/

/-- `"final"`, the only on-disk status that licenses a cache hit. -/
def STATUS_FINAL : String := "final"

/-- One value of the on-disk game-stats cache (`OnDiskCacheEntry`).
`boxscore_raw = none` models a stored payload whose reconstruction
(`GameBoxscoreResponse(**...)` / `FinalPlayerGameStats(**...)`) raises. -/
structure CachedGameEntry where
  status : Option String := none
  boxscore_raw : Option GameBoxscoreResponse := none
  players : List (Nat × FinalPlayerGameStats) := []

/-- The cache-hit test of `_load_and_partition_games`:
`cached_game and cached_game.get("status") == "final"`.  (An empty dict is
falsy in Python, but it also has no `"final"` status, so the conjunction is
equivalent to the status test alone.) -/
def cached_entry_final (disk : List (Nat × CachedGameEntry)) (gid : Nat) : Bool :=
  match alookup gid disk with
  | some e => e.status == some STATUS_FINAL
  | none => false

/-- Whether the stored payload for `gid` fails to deserialize during the
cache-load loop of `_load_and_partition_games`. -/
def cached_entry_corrupted (disk : List (Nat × CachedGameEntry)) (gid : Nat) : Bool :=
  match alookup gid disk with
  | some e => e.boxscore_raw.isNone
  | none => false

/-- The orchestrator state mutated by `_load_and_partition_games`. -/
structure PartitionResult where
  game_ids_to_fetch_fresh : List Nat
  game_ids_from_cache : List Nat
  boxscore_map : List (Nat × GameBoxscoreResponse)
  game_cache_internal : List (Nat × List (Nat × FinalPlayerGameStats))

/-- `PlayerStatsProcessor._load_and_partition_games`: partition the requested
ids by the `"final"`-status cache test (all fresh when `use_cache` is false),
then reconstruct the boxscore and record set of each cache hit; a reconstruction
failure appends just that id to the fresh-fetch list (the source comment notes
it stays in `game_ids_from_cache`, which is harmless) and the loop continues. -/
def load_and_partition_games (use_cache : Bool) (disk : List (Nat × CachedGameEntry))
    (game_ids_to_process : List Nat) : PartitionResult :=
  let game_ids_from_cache :=
    if use_cache then game_ids_to_process.filter (cached_entry_final disk) else []
  let fresh0 :=
    if use_cache then game_ids_to_process.filter (fun g => !cached_entry_final disk g)
    else game_ids_to_process
  let corrupted := game_ids_from_cache.filter (cached_entry_corrupted disk)
  { game_ids_to_fetch_fresh := fresh0 ++ corrupted
    game_ids_from_cache := game_ids_from_cache
    boxscore_map := game_ids_from_cache.filterMap (fun g =>
      (alookup g disk).bind fun e => e.boxscore_raw.map (fun b => (g, b)))
    game_cache_internal := game_ids_from_cache.filterMap (fun g =>
      (alookup g disk).bind fun e => e.boxscore_raw.map (fun _ => (g, e.players))) }

/-! ## player_stats_fetcher.py: persist phase (`_write_data_to_db`) -/

/-- The goalie-row construction of `_write_data_to_db` (position in
`GOALIE_POSITIONS`).  `stats.saves and stats.saves > 0` — truthiness plus
comparison — is equivalent to `0 < stats.saves.getD 0`. -/
def make_goalie_record (boxscore : GameBoxscoreResponse) (stats : FinalPlayerGameStats) :
    GoalieGameStats :=
  let opponent_abbrev := get_opponent_abbrev boxscore stats.teamAbbrev
  { game_id := stats.gameId
    player_id := stats.playerId
    season := SEASON_ID
    game_date := stats.gameDate
    team_abbrev := stats.teamAbbrev
    team_name := (slookup stats.teamAbbrev TEAM_MAP).getD ("Unknown")
    opponent_abbrev := opponent_abbrev
    opponent_name := (slookup opponent_abbrev TEAM_MAP).getD ("Unknown")
    player_name := some stats.name
    jersey_number := stats.sweaterNumber
    position := some ("Goalie")
    saves := stats.saves.getD 0
    save_pct := stats.savePctg.getD 0
    goals_against := stats.goalsAgainst.getD 0
    decision := stats.decision
    wins := if stats.decision = some WIN_DECISION then 1 else 0
    shutouts := if stats.goalsAgainst = some 0 ∧ 0 < stats.saves.getD 0 then 1 else 0
    ot_losses := if stats.decision = some OT_LOSS_DECISION then 1 else 0
    total_fpts := calculate_fantasy_points_goalie stats }

/-- The skater-row construction of `_write_data_to_db` (any other position,
including the unmerged placeholder `"N/A"`). -/
def make_skater_record (boxscore : GameBoxscoreResponse) (stats : FinalPlayerGameStats) :
    PlayerGameStats :=
  let opponent_abbrev := get_opponent_abbrev boxscore stats.teamAbbrev
  { game_id := stats.gameId
    player_id := stats.playerId
    season := SEASON_ID
    game_date := stats.gameDate
    team_abbrev := stats.teamAbbrev
    team_name := (slookup stats.teamAbbrev TEAM_MAP).getD ("Unknown")
    opponent_abbrev := opponent_abbrev
    opponent_name := (slookup opponent_abbrev TEAM_MAP).getD ("Unknown")
    player_name := some stats.name
    jersey_number := stats.sweaterNumber
    position := some stats.position
    goals := stats.goals
    assists := stats.assists
    pp_points := (stats.powerPlayPoints : ℚ)
    sh_points := (stats.shorthandedPoints : ℚ)
    shots := stats.sog
    shooting_pct :=
      if 0 < stats.sog then some ((stats.goals : ℚ) / (stats.sog : ℚ)) else none
    blocked_shots := stats.blockedShots
    hits := stats.hits
    toi_seconds := toi_to_seconds stats.toi
    shifts := stats.shifts
    total_fpts := calculate_fantasy_points_skater stats }

/-- The goalie rows a single game with boxscore `b` contributes in
`_write_data_to_db`. -/
def goalie_rows_of_game (b : GameBoxscoreResponse)
    (players : List (Nat × FinalPlayerGameStats)) : List GoalieGameStats :=
  players.filterMap (fun ps =>
    if GOALIE_POSITIONS.contains ps.2.position then some (make_goalie_record b ps.2) else none)

/-- The skater rows a single game with boxscore `b` contributes in
`_write_data_to_db`. -/
def skater_rows_of_game (b : GameBoxscoreResponse)
    (players : List (Nat × FinalPlayerGameStats)) : List PlayerGameStats :=
  players.filterMap (fun ps =>
    if GOALIE_POSITIONS.contains ps.2.position then none else some (make_skater_record b ps.2))

/-- The four row lists `_write_data_to_db` builds before touching the
database. -/
structure WriteOutput where
  skater_records_to_merge : List PlayerGameStats
  goalie_records_to_merge : List GoalieGameStats
  skater_records_for_incremental_update : List PlayerGameStats
  goalie_records_for_incremental_update : List GoalieGameStats

/-- The transform loop of `PlayerStatsProcessor._write_data_to_db`:
iterate over the internal reconciliation cache; a game whose id is absent
from `boxscore_map` is skipped entirely (its records are not persisted);
otherwise every record is routed by `position in GOALIE_POSITIONS` to the
goalie or the skater list, and additionally — only when the game id is in
`game_ids_to_fetch_fresh` — to the corresponding incremental-update list. -/
def write_data_transform
    (game_cache_internal : List (Nat × List (Nat × FinalPlayerGameStats)))
    (boxscore_map : List (Nat × GameBoxscoreResponse))
    (game_ids_to_fetch_fresh : List Nat) : WriteOutput :=
  let games := game_cache_internal.filterMap (fun gp =>
    (alookup gp.1 boxscore_map).map (fun b => (gp.1, b, gp.2)))
  { skater_records_to_merge := games.flatMap (fun g => skater_rows_of_game g.2.1 g.2.2)
    goalie_records_to_merge := games.flatMap (fun g => goalie_rows_of_game g.2.1 g.2.2)
    skater_records_for_incremental_update := games.flatMap (fun g =>
      if game_ids_to_fetch_fresh.contains g.1 then skater_rows_of_game g.2.1 g.2.2 else [])
    goalie_records_for_incremental_update := games.flatMap (fun g =>
      if game_ids_to_fetch_fresh.contains g.1 then goalie_rows_of_game g.2.1 g.2.2 else []) }

/-! ## player_stats_fetcher.py: `_update_pro_players_incrementally` -/

/-- The SQLite error a duplicate-primary-key `session.add` surfaces at
commit. -/
def INTEGRITY_ERROR : String := "UNIQUE constraint failed: pro_players.player_id"

/-- The `.where(ProPlayers.player_id in (player_ids))` clause of
`_update_pro_players_incrementally`.  This is the Python membership operator
applied to the ORM column object: the column hashes by object identity, so it
is a member of no set of integers, the expression evaluates to the constant
`False`, and the query selects no rows.  (The intended SQLAlchemy filter
would have been `ProPlayers.player_id.in_(player_ids)`.) -/
def proPlayers_where_in (player_ids : List Nat) (p : ProPlayers) : Bool :=
  let _ := player_ids
  let _ := p
  false

/-- Python membership `p.player_id in player_ids`, the filter the
surrounding code (its docstring and its `existing_players_map` usage)
intends. -/
def proPlayers_where_in_intended (player_ids : List Nat) (p : ProPlayers) : Bool :=
  player_ids.contains p.player_id

/-- Insert-or-replace on an association list keyed by `Nat`, modelling
`dict.__setitem__`: an existing key is overwritten in place, a new key is
appended (Python dicts preserve insertion order). -/
def dictInsertNat {β : Type} : List (Nat × β) → Nat → β → List (Nat × β)
  | [], k, v => [(k, v)]
  | kv :: rest, k, v =>
    if kv.1 = k then (k, v) :: rest else kv :: dictInsertNat rest k v

/-- The skater branch of the per-stat update loop: refresh identity fields
from the latest game and add the contribution of the game onto the running season
totals ( `(x or 0) + y` on a non-nullable integer column is `x + y`). -/
def apply_skater_stat (p : ProPlayers) (stat : PlayerGameStats) (safe_player_name : String) :
    ProPlayers :=
  { p with
    player_name := safe_player_name
    team_abbrev := some stat.team_abbrev
    position := stat.position
    jersey_number := stat.jersey_number
    season_games_played := p.season_games_played + 1
    season_total_fpts := p.season_total_fpts + stat.total_fpts
    season_goals := p.season_goals + stat.goals
    season_assists := p.season_assists + stat.assists
    season_pp_points := p.season_pp_points + stat.pp_points
    season_sh_points := p.season_sh_points + stat.sh_points
    season_shots := p.season_shots + stat.shots
    season_blocked_shots := p.season_blocked_shots + stat.blocked_shots
    season_hits := p.season_hits + stat.hits }

/-- The goalie branch of the per-stat update loop (the source does not
refresh `player_name` for an existing goalie row). -/
def apply_goalie_stat (p : ProPlayers) (stat : GoalieGameStats) : ProPlayers :=
  { p with
    team_abbrev := some stat.team_abbrev
    position := stat.position
    jersey_number := stat.jersey_number
    is_goalie := true
    season_games_played := p.season_games_played + 1
    season_total_fpts := p.season_total_fpts + stat.total_fpts
    season_wins := p.season_wins + stat.wins
    season_shutouts := p.season_shutouts + stat.shutouts
    season_ot_losses := p.season_ot_losses + stat.ot_losses
    season_saves := p.season_saves + stat.saves
    season_goals_against := p.season_goals_against + stat.goals_against }

/-- Loop state: the `existing_players_map` plus the ids `session.add` was
called on, in order. -/
structure UpdateLoopState where
  m : List (Nat × ProPlayers)
  added : List Nat

/-- One skater iteration of `_update_pro_players_incrementally`. -/
def update_step_skater (st : UpdateLoopState) (stat : PlayerGameStats) : UpdateLoopState :=
  let safe_player_name := stat.player_name.getD ("Unknown")
  match alookup stat.player_id st.m with
  | some player =>
    { st with m := dictInsertNat st.m stat.player_id (apply_skater_stat player stat safe_player_name) }
  | none =>
    let player : ProPlayers :=
      { player_id := stat.player_id, is_active := true, is_goalie := false
        player_name := safe_player_name }
    { m := dictInsertNat st.m stat.player_id (apply_skater_stat player stat safe_player_name)
      added := st.added ++ [stat.player_id] }

/-- One goalie iteration of `_update_pro_players_incrementally`. -/
def update_step_goalie (st : UpdateLoopState) (stat : GoalieGameStats) : UpdateLoopState :=
  let safe_player_name := stat.player_name.getD ("Unknown")
  match alookup stat.player_id st.m with
  | some player =>
    { st with m := dictInsertNat st.m stat.player_id (apply_goalie_stat player stat) }
  | none =>
    let player : ProPlayers :=
      { player_id := stat.player_id, is_active := true, is_goalie := true
        player_name := safe_player_name }
    { m := dictInsertNat st.m stat.player_id (apply_goalie_stat player stat)
      added := st.added ++ [stat.player_id] }

/-- `_update_pro_players_incrementally`, parameterized by the where-clause
used to fetch the existing rows, followed by the surrounding transaction
commit: rows fetched by the clause are updated in place, rows that were
`session.add`ed are inserted, and an insert whose primary key already exists
makes the commit fail (the caller rolls back and re-raises). -/
def update_pro_players_with_filter
    (whereClause : List Nat → ProPlayers → Bool)
    (db : List ProPlayers)
    (new_skater_stats : List PlayerGameStats)
    (new_goalie_stats : List GoalieGameStats) : Except String (List ProPlayers) :=
  let player_ids :=
    new_skater_stats.map (fun s => s.player_id) ++ new_goalie_stats.map (fun g => g.player_id)
  if player_ids.isEmpty then Except.ok db
  else
    let existing_players_list := db.filter (whereClause player_ids)
    let existing_players_map := existing_players_list.map (fun p => (p.player_id, p))
    let st0 : UpdateLoopState := { m := existing_players_map, added := [] }
    let st1 := new_skater_stats.foldl update_step_skater st0
    let st2 := new_goalie_stats.foldl update_step_goalie st1
    let db_updated := db.map (fun p =>
      if whereClause player_ids p then (alookup p.player_id st2.m).getD p else p)
    let rows_added := st2.added.filterMap (fun pid => alookup pid st2.m)
    if rows_added.any (fun q => db.any (fun p => p.player_id == q.player_id)) then
      Except.error INTEGRITY_ERROR
    else Except.ok (db_updated ++ rows_added)

/-- `PlayerStatsProcessor._update_pro_players_incrementally` as written: the
existing-row query uses the Python `in` operator, i.e. the constant-false
where clause `proPlayers_where_in`. -/
def update_pro_players_incrementally
    (db : List ProPlayers)
    (new_skater_stats : List PlayerGameStats)
    (new_goalie_stats : List GoalieGameStats) : Except String (List ProPlayers) :=
  update_pro_players_with_filter proPlayers_where_in db new_skater_stats new_goalie_stats

/-! ## scripts/seed_pro_players.py: full rebuild -/

/-- The skater dict returned by `calculate_season_totals` (is_goalie false). -/
structure SkaterSeasonTotals where
  season_games_played : Int
  season_total_fpts : ℚ
  season_goals : Int
  season_assists : Int
  season_pp_points : ℚ
  season_sh_points : ℚ
  season_shots : Int
  season_blocked_shots : Int
  season_hits : Int
deriving DecidableEq

/-- The goalie dict returned by `calculate_season_totals` (is_goalie true). -/
structure GoalieSeasonTotals where
  season_games_played : Int
  season_total_fpts : ℚ
  season_wins : Int
  season_shutouts : Int
  season_ot_losses : Int
  season_saves : Int
  season_goals_against : Int
deriving DecidableEq

/-- `seed_pro_players.calculate_season_totals`, skater branch: re-scan all season
game rows of the player and re-sum. -/
def calculate_season_totals_skater (db : List PlayerGameStats) (player_id : Nat) :
    SkaterSeasonTotals :=
  let games := db.filter (fun g => g.player_id == player_id && g.season == SEASON_ID)
  { season_games_played := games.length
    season_total_fpts := (games.map (fun g => g.total_fpts)).sum
    season_goals := (games.map (fun g => g.goals)).sum
    season_assists := (games.map (fun g => g.assists)).sum
    season_pp_points := (games.map (fun g => g.pp_points)).sum
    season_sh_points := (games.map (fun g => g.sh_points)).sum
    season_shots := (games.map (fun g => g.shots)).sum
    season_blocked_shots := (games.map (fun g => g.blocked_shots)).sum
    season_hits := (games.map (fun g => g.hits)).sum }

/-- `seed_pro_players.calculate_season_totals`, goalie branch. -/
def calculate_season_totals_goalie (db : List GoalieGameStats) (player_id : Nat) :
    GoalieSeasonTotals :=
  let games := db.filter (fun g => g.player_id == player_id && g.season == SEASON_ID)
  { season_games_played := games.length
    season_total_fpts := (games.map (fun g => g.total_fpts)).sum
    season_wins := (games.map (fun g => g.wins)).sum
    season_shutouts := (games.map (fun g => g.shutouts)).sum
    season_ot_losses := (games.map (fun g => g.ot_losses)).sum
    season_saves := (games.map (fun g => g.saves)).sum
    season_goals_against := (games.map (fun g => g.goals_against)).sum }

/-! ## nhl_api_utils.py: schedule resolver -/

/-- A team block inside a schedule `Game` (`commonName.default` plus
`abbrev`; the latter is a Lean keyword, rendered `abbr`). -/
structure ScheduleTeam where
  commonNameDefault : String
  abbr : String
deriving DecidableEq

/-- A `Game` of `GamesResponse` restricted to the fields
`fetch_team_schedule` reads. -/
structure ScheduleGame where
  id : Nat
  gameType : Int
  startTimeUTC : String
  homeTeam : ScheduleTeam
  awayTeam : ScheduleTeam
deriving DecidableEq

/-- The per-game dict value `fetch_team_schedule` stores. -/
structure ScheduleEntry where
  game_id : String
  date : String
  home_team : String
  away_team : String
  home_abbrev : String
  away_abbrev : String
  id : Nat
deriving DecidableEq

/-- Insert-or-replace keyed by `Nat`, modelling `dict.__setitem__`. -/
def dictSet {β : Type} (m : List (Nat × β)) (k : Nat) (v : β) : List (Nat × β) :=
  dictInsertNat m k v

/-- `dict.update`: set every key of `m2`, in order, into `m1`. -/
def dictUpdate {β : Type} (m1 m2 : List (Nat × β)) : List (Nat × β) :=
  m2.foldl (fun acc kv => dictSet acc kv.1 kv.2) m1

/-- The entry `fetch_team_schedule` builds for one regular-season game. -/
def schedule_entry_of_game (game : ScheduleGame) : ScheduleEntry :=
  { game_id := toString game.id
    date := game.startTimeUTC
    home_team := game.homeTeam.commonNameDefault
    away_team := game.awayTeam.commonNameDefault
    home_abbrev := game.homeTeam.abbr
    away_abbrev := game.awayTeam.abbr
    id := game.id }

/-- `nhl_api_utils.fetch_team_schedule` for one team: `none` as input models
any failure (HTTP error, validation error) — the `except` clause catches it
and the function returns the empty dict; on success the
regular-season games (`gameType == 2`) are keyed by game id. -/
def fetch_team_schedule (fetched : Option (List ScheduleGame)) : List (Nat × ScheduleEntry) :=
  match fetched with
  | none => []
  | some games =>
    games.foldl (fun team_games game =>
      if game.gameType == 2 then dictSet team_games game.id (schedule_entry_of_game game)
      else team_games) []

/-- `nhl_api_utils.get_all_unique_games`: one fetch per team of `teams`, the
results merged into one dict by `unique_games.update(team_games)`. -/
def get_all_unique_games (teams : List String)
    (fetchResult : String → Option (List ScheduleGame)) : List (Nat × ScheduleEntry) :=
  teams.foldl (fun unique_games team => dictUpdate unique_games (fetch_team_schedule (fetchResult team))) []

/-! ## Concrete records used in examples and witnesses -/

/-- The literal skater example of the spec: goals=2, assists=1, powerPlayPoints=1,
shorthandedPoints=0, shotsOnGoal=4, blockedShots=2, hits=3. -/
def exampleSkaterStats : FinalPlayerGameStats :=
  { playerId := 1, gameId := 10, teamAbbrev := "TOR", gameDate := "2025-11-09"
    powerPlayPoints := 1, shorthandedPoints := 0, toi := "15:30", shifts := 20, pim := 0
    name := "Example Skater", position := "C"
    goals := 2, assists := 1, sog := 4, blockedShots := 2, hits := 3 }

/-- The literal goalie example of the spec: decision="W", goalsAgainst=2,
saves=28. -/
def exampleGoalieStats : FinalPlayerGameStats :=
  { playerId := 2, gameId := 10, teamAbbrev := "TOR", gameDate := "2025-11-09"
    name := "Example Goalie", position := "G"
    saves := some 28, savePctg := some (14 / 15), goalsAgainst := some 2
    decision := some WIN_DECISION }

/-- The shutout edge case of the spec: goalsAgainst=0 but saves=0 (did not
play). -/
def shutoutEdgeGoalieStats : FinalPlayerGameStats :=
  { playerId := 4, gameId := 11, teamAbbrev := "BOS", gameDate := "2025-11-09"
    name := "Backup Goalie", position := "G"
    saves := some 0, savePctg := none, goalsAgainst := some 0, decision := none }

/-- A boxscore shell used by witnesses (home TOR, away BOS, empty rosters). -/
def witnessBoxscore : GameBoxscoreResponse :=
  { id := 7, gameDate := "2025-11-09"
    awayTeam := { abbr := "BOS" }, homeTeam := { abbr := "TOR" }
    playerByGameStats := { awayTeam := {}, homeTeam := {} } }

/-- A reconciliation record exactly as Phase 2 creates it from a player-log
entry: origin-A fields set, every origin-B field still at its default, in
particular position `"N/A"`. -/
def c1UnmergedRecord : FinalPlayerGameStats :=
  { playerId := 2, gameId := 1, teamAbbrev := "TOR", gameDate := "2025-11-09"
    powerPlayPoints := 1, shorthandedPoints := 0, toi := "12:30", shifts := 18, pim := 0 }

/-- A season-aggregate row that already exists before the incremental batch:
player 100 with 5 games played. -/
def c2ExistingPlayer : ProPlayers :=
  { player_id := 100, player_name := "Veteran Centre", team_abbrev := some ("TOR")
    position := some ("C"), jersey_number := some 34
    season_games_played := 5, season_total_fpts := 50
    season_goals := 3, season_assists := 4, season_shots := 12 }

/-- A freshly fetched game row for player 100. -/
def c2NewStat : PlayerGameStats :=
  { game_id := 12, player_id := 100, season := SEASON_ID, game_date := "2025-11-10"
    team_abbrev := "TOR", team_name := "Toronto Maple Leafs"
    opponent_abbrev := "BOS", opponent_name := "Boston Bruins"
    player_name := some ("Veteran Centre"), jersey_number := some 34, position := some ("C")
    goals := 1, assists := 0, shots := 2, total_fpts := 2 }

/-- The game-21 skater row for player 500. -/
def c3Game1Row : PlayerGameStats :=
  { game_id := 21, player_id := 500, season := SEASON_ID, game_date := "2025-11-01"
    team_abbrev := "TOR", team_name := "Toronto Maple Leafs"
    opponent_abbrev := "BOS", opponent_name := "Boston Bruins"
    player_name := some ("Rookie Winger"), position := some ("L")
    goals := 1, shots := 3, total_fpts := 23 / 10 }

/-- The game-22 skater row for the same player 500. -/
def c3Game2Row : PlayerGameStats :=
  { game_id := 22, player_id := 500, season := SEASON_ID, game_date := "2025-11-03"
    team_abbrev := "TOR", team_name := "Toronto Maple Leafs"
    opponent_abbrev := "MTL", opponent_name := "Montreal Canadiens"
    player_name := some ("Rookie Winger"), position := some ("L")
    assists := 1, shots := 2, total_fpts := 12 / 10 }

/-! ## Helper lemmas -/

theorem roundHalfEven_intCast (n : ℤ) : roundHalfEven (n : ℚ) = n := by
  have h1 : Int.ediv n 1 = n := Int.ediv_one n
  simp [roundHalfEven, Rat.num_intCast, Rat.den_intCast, h1]

theorem round2py_eq_of_mul_eq {x : ℚ} {n : ℤ} (h : x * 100 = (n : ℚ)) :
    round2py x = (n : ℚ) / 100 := by
  rw [round2py, h, roundHalfEven_intCast]

/-! ## Claim theorems -/

/-- C5: the skater fantasy-point function returns
`round(goals*2 + assists*1 + powerPlayPoints*0.5 + shorthandedPoints*0.5 +
shotsOnGoal*0.1 + blockedShots*0.5 + hits*0.1, 2)` under the configured
weights; missing numeric inputs are the zero defaults of the record and the
function is total (never raises); on the literal spec example it yields
7.20 = 36/5. -/
theorem skater_fantasy_points_spec :
    (∀ stats : FinalPlayerGameStats,
      calculate_fantasy_points_skater stats =
        round2py ((stats.goals : ℚ) * 2 + (stats.assists : ℚ) * 1
          + (stats.powerPlayPoints : ℚ) * (1 / 2) + (stats.shorthandedPoints : ℚ) * (1 / 2)
          + (stats.sog : ℚ) * (1 / 10) + (stats.blockedShots : ℚ) * (1 / 2)
          + (stats.hits : ℚ) * (1 / 10)))
    ∧ calculate_fantasy_points_skater exampleSkaterStats = 36 / 5 := by
  constructor
  · intro stats
    rfl
  · have h : calculate_fantasy_points_skater exampleSkaterStats = round2py (36 / 5) := by
      simp only [calculate_fantasy_points_skater, SKATER_FPTS_WEIGHTS, exampleSkaterStats]
      norm_num
    rw [h, round2py_eq_of_mul_eq (n := 720) (by norm_num)]
    norm_num

/-- C4: the goalie fantasy-point function returns
`round(win*4 + goalsAgainst*(-2) + saves*0.2 + shutout*3 + otLoss*1, 2)` with
`win = 1` iff decision is `"W"`, `otLoss = 1` iff decision is `"O"`,
`shutout = 1` iff goalsAgainst is 0 and saves (None counting as 0) is
positive; None saves/goalsAgainst contribute 0 to the sum.  On the
literal spec example it yields 5.60 = 28/5, and a goalie with goalsAgainst=0 but
saves=0 gets no shutout credit (total 0 when no decision). -/
theorem goalie_fantasy_points_spec :
    (∀ stats : FinalPlayerGameStats,
      calculate_fantasy_points_goalie stats =
        round2py ((if stats.decision = some WIN_DECISION then (1 : ℚ) else 0) * 4
          + ((stats.goalsAgainst.getD 0 : ℤ) : ℚ) * (-2)
          + ((stats.saves.getD 0 : ℤ) : ℚ) * (1 / 5)
          + (if stats.goalsAgainst = some 0 ∧ 0 < stats.saves.getD 0 then (1 : ℚ) else 0) * 3
          + (if stats.decision = some OT_LOSS_DECISION then (1 : ℚ) else 0) * 1))
    ∧ calculate_fantasy_points_goalie exampleGoalieStats = 28 / 5
    ∧ calculate_fantasy_points_goalie shutoutEdgeGoalieStats = 0 := by
  refine ⟨fun stats => ?_, ?_, ?_⟩
  · simp only [calculate_fantasy_points_goalie, GOALIE_FPTS_WEIGHTS,
      apply_ite (fun z : ℤ => (z : ℚ))]
    norm_num
  · have h : calculate_fantasy_points_goalie exampleGoalieStats = round2py (28 / 5) := by
      simp only [calculate_fantasy_points_goalie, GOALIE_FPTS_WEIGHTS, exampleGoalieStats]
      norm_num [WIN_DECISION, OT_LOSS_DECISION,
        (show ("W" : String) ≠ "O" from by decide)]
    rw [h, round2py_eq_of_mul_eq (n := 560) (by norm_num)]
    norm_num
  · have h : calculate_fantasy_points_goalie shutoutEdgeGoalieStats = round2py 0 := by
      simp only [calculate_fantasy_points_goalie, GOALIE_FPTS_WEIGHTS, shutoutEdgeGoalieStats]
      norm_num [WIN_DECISION, OT_LOSS_DECISION,
        (show (none : Option String) ≠ some "W" from by decide),
        (show (none : Option String) ≠ some "O" from by decide)]
    rw [h, round2py_eq_of_mul_eq (n := 0) (by norm_num)]
    norm_num

/-- C10: `toi_to_seconds` is total; on a two-field `"MM:SS"` string whose
fields parse as integers it returns `MM*60 + SS`, and on every other input
it returns 0 (the bare `except` catches the unpacking or parse failure). -/
theorem toi_to_seconds_total_spec (toi_str : String) :
    (∀ m s minutes seconds, splitOnColon toi_str.data = [m, s] →
      pyInt m = some minutes → pyInt s = some seconds →
      toi_to_seconds toi_str = minutes * 60 + seconds)
    ∧ ((¬ ∃ m s minutes seconds, splitOnColon toi_str.data = [m, s] ∧
        pyInt m = some minutes ∧ pyInt s = some seconds) →
      toi_to_seconds toi_str = 0) := by
  constructor
  · intro m s minutes seconds h1 h2 h3
    simp [toi_to_seconds, h1, h2, h3]
  · intro h
    unfold toi_to_seconds
    rcases hsp : splitOnColon toi_str.data with _ | ⟨m, _ | ⟨s, rest⟩⟩
    · rfl
    · rfl
    · rcases rest with _ | ⟨r, rest⟩
      · rcases hm : pyInt m with _ | minutes
        · simp [hm]
        · rcases hs : pyInt s with _ | seconds
          · simp [hm, hs]
          · exact absurd ⟨m, s, minutes, seconds, hsp, hm, hs⟩ h
      · rfl

/-- C10 witness: the theorem applied at the concrete inputs `"12:34"`
(well-formed) and `"1:2:3"` (three fields, so the parser yields 0). -/
theorem toi_to_seconds_total_spec_witness :
    toi_to_seconds "12:34" = 12 * 60 + 34 ∧ toi_to_seconds "1:2:3" = 0 :=
  ⟨(toi_to_seconds_total_spec "12:34").1 (['1', '2']) (['3', '4']) 12 34
      (by decide) (by decide) (by decide),
    (toi_to_seconds_total_spec "1:2:3").2 (by
      rintro ⟨m, s, minutes, seconds, hsp, -, -⟩
      have h3 : splitOnColon ("1:2:3").data = [['1'], ['2'], ['3']] := by decide
      rw [h3] at hsp
      simp at hsp)⟩

/-- C8: every persisted row stores the recorded team of the player and the
opponent resolved by `get_opponent_abbrev` from the boxscore of the game; that
resolution maps the home side to the away abbreviation and the away side to
the home abbreviation. -/
theorem opponent_resolution_spec (boxscore : GameBoxscoreResponse) (team_abbrev : String)
    (stats : FinalPlayerGameStats) :
    (team_abbrev = boxscore.homeTeam.abbr →
      get_opponent_abbrev boxscore team_abbrev = boxscore.awayTeam.abbr)
    ∧ (team_abbrev = boxscore.awayTeam.abbr →
      get_opponent_abbrev boxscore team_abbrev = boxscore.homeTeam.abbr)
    ∧ (make_skater_record boxscore stats).team_abbrev = stats.teamAbbrev
    ∧ (make_skater_record boxscore stats).opponent_abbrev =
        get_opponent_abbrev boxscore stats.teamAbbrev
    ∧ (make_goalie_record boxscore stats).team_abbrev = stats.teamAbbrev
    ∧ (make_goalie_record boxscore stats).opponent_abbrev =
        get_opponent_abbrev boxscore stats.teamAbbrev := by
  refine ⟨fun h => ?_, fun h => ?_, rfl, rfl, rfl, rfl⟩
  · rw [get_opponent_abbrev, if_pos h]
  · unfold get_opponent_abbrev
    split
    · next hh => rw [← h, hh]
    · rfl

/-- C8 witness: the theorem applied at a concrete boxscore (home TOR,
away BOS) for a player recorded on each side. -/
theorem opponent_resolution_spec_witness :
    get_opponent_abbrev witnessBoxscore "TOR" = "BOS"
    ∧ get_opponent_abbrev witnessBoxscore "BOS" = "TOR" :=
  ⟨(opponent_resolution_spec witnessBoxscore "TOR" exampleSkaterStats).1 rfl,
    (opponent_resolution_spec witnessBoxscore "BOS" exampleSkaterStats).2.1 rfl⟩

/-- C6: with cache use enabled, a requested game id is classified as a cache
hit exactly when its on-disk entry exists with status `"final"`, and it ends
on the fresh-fetch list exactly when it is not such a hit or its stored
payload fails to deserialize; the classification of each id depends only on its
own entry, so one corrupted entry moves only that id (and the partition
function is total: the run continues). -/
theorem partition_cache_hit_iff_final (disk : List (Nat × CachedGameEntry))
    (requested : List Nat) (gid : Nat) :
    (gid ∈ (load_and_partition_games true disk requested).game_ids_from_cache ↔
      gid ∈ requested ∧ cached_entry_final disk gid = true)
    ∧ (gid ∈ (load_and_partition_games true disk requested).game_ids_to_fetch_fresh ↔
      gid ∈ requested ∧ (cached_entry_final disk gid = false ∨
        (cached_entry_final disk gid = true ∧ cached_entry_corrupted disk gid = true))) := by
  unfold load_and_partition_games
  constructor
  · simp [List.mem_filter]
  · simp only [if_true, List.mem_append, List.mem_filter, Bool.not_eq_true',
      Bool.not_eq_true]
    constructor
    · rintro (⟨hmem, hfin⟩ | ⟨⟨hmem, hfin⟩, hcor⟩)
      · exact ⟨hmem, Or.inl hfin⟩
      · exact ⟨hmem, Or.inr ⟨hfin, hcor⟩⟩
    · rintro ⟨hmem, hfin | ⟨hfin, hcor⟩⟩
      · exact Or.inl ⟨hmem, hfin⟩
      · exact Or.inr ⟨⟨hmem, hfin⟩, hcor⟩


/-- Key membership in an insert-or-replace association list. -/
theorem exists_mem_dictInsertNat {β : Type} (m : List (Nat × β)) (k' : Nat) (v : β) (k : Nat) :
    (∃ w, (k, w) ∈ dictInsertNat m k' v) ↔ k = k' ∨ ∃ w, (k, w) ∈ m := by
  induction m with
  | nil => simp [dictInsertNat]
  | cons kv rest ih =>
    by_cases h : kv.1 = k'
    · rw [show dictInsertNat (kv :: rest) k' v = (k', v) :: rest from by
        simp [dictInsertNat, h]]
      constructor
      · rintro ⟨w, hw⟩
        rcases List.mem_cons.mp hw with heq | hr
        · exact Or.inl (congrArg Prod.fst heq)
        · exact Or.inr ⟨w, List.mem_cons_of_mem _ hr⟩
      · rintro (rfl | ⟨w, hw⟩)
        · exact ⟨v, List.mem_cons_self _ _⟩
        · rcases List.mem_cons.mp hw with heq | hr
          · have hk : k = k' := (congrArg Prod.fst heq).trans h
            exact ⟨v, by rw [hk]; exact List.mem_cons_self _ _⟩
          · exact ⟨w, List.mem_cons_of_mem _ hr⟩
    · rw [show dictInsertNat (kv :: rest) k' v = kv :: dictInsertNat rest k' v from by
        simp [dictInsertNat, h]]
      constructor
      · rintro ⟨w, hw⟩
        rcases List.mem_cons.mp hw with heq | hr
        · exact Or.inr ⟨w, by rw [heq]; exact List.mem_cons_self _ _⟩
        · rcases ih.mp ⟨w, hr⟩ with hk | ⟨w2, hw2⟩
          · exact Or.inl hk
          · exact Or.inr ⟨w2, List.mem_cons_of_mem _ hw2⟩
      · rintro (rfl | ⟨w, hw⟩)
        · rcases ih.mpr (Or.inl rfl) with ⟨w2, hw2⟩
          exact ⟨w2, List.mem_cons_of_mem _ hw2⟩
        · rcases List.mem_cons.mp hw with heq | hr
          · exact ⟨w, by rw [heq]; exact List.mem_cons_self _ _⟩
          · rcases ih.mpr (Or.inr ⟨w, hr⟩) with ⟨w2, hw2⟩
            exact ⟨w2, List.mem_cons_of_mem _ hw2⟩

/-- Key membership in a `dict.update` merge. -/
theorem exists_mem_dictUpdate {β : Type} (m1 m2 : List (Nat × β)) (k : Nat) :
    (∃ w, (k, w) ∈ dictUpdate m1 m2) ↔ (∃ w, (k, w) ∈ m1) ∨ ∃ w, (k, w) ∈ m2 := by
  induction m2 generalizing m1 with
  | nil => simp [dictUpdate]
  | cons kv rest ih =>
    have hstep : dictUpdate m1 (kv :: rest) = dictUpdate (dictInsertNat m1 kv.1 kv.2) rest := rfl
    rw [hstep, ih, exists_mem_dictInsertNat]
    constructor
    · rintro ((rfl | hm1) | ⟨w, hw⟩)
      · exact Or.inr ⟨kv.2, by rw [Prod.mk.eta]; exact List.mem_cons_self _ _⟩
      · exact Or.inl hm1
      · exact Or.inr ⟨w, List.mem_cons_of_mem _ hw⟩
    · rintro (hm1 | ⟨w, hw⟩)
      · exact Or.inl (Or.inr hm1)
      · rcases List.mem_cons.mp hw with heq | hr
        · exact Or.inl (Or.inl (congrArg Prod.fst heq))
        · exact Or.inr ⟨w, hr⟩

/-- Key membership in one fetched team schedule: exactly its regular-season
game ids. -/
theorem exists_mem_fetch_team_schedule (games : List ScheduleGame) (k : Nat) :
    (∃ w, (k, w) ∈ fetch_team_schedule (some games)) ↔
      ∃ g ∈ games, g.gameType = 2 ∧ g.id = k := by
  have h : ∀ (gs : List ScheduleGame) (acc : List (Nat × ScheduleEntry)),
      (∃ w, (k, w) ∈ gs.foldl (fun team_games game =>
          if game.gameType == 2 then dictSet team_games game.id (schedule_entry_of_game game)
          else team_games) acc) ↔
        (∃ w, (k, w) ∈ acc) ∨ ∃ g ∈ gs, g.gameType = 2 ∧ g.id = k := by
    intro gs
    induction gs with
    | nil => intro acc; simp
    | cons g rest ih =>
      intro acc
      rw [List.foldl_cons, ih]
      by_cases hg : g.gameType = 2
      · have hgb : (g.gameType == 2) = true := by simpa using hg
        rw [hgb]
        simp only [if_true, dictSet, exists_mem_dictInsertNat]
        constructor
        · rintro ((rfl | hacc) | ⟨g2, hg2, hT2, hid2⟩)
          · exact Or.inr ⟨g, List.mem_cons_self _ _, hg, rfl⟩
          · exact Or.inl hacc
          · exact Or.inr ⟨g2, List.mem_cons_of_mem _ hg2, hT2, hid2⟩
        · rintro (hacc | ⟨g2, hg2, hT2, hid2⟩)
          · exact Or.inl (Or.inr hacc)
          · rcases List.mem_cons.mp hg2 with rfl | hrest
            · exact Or.inl (Or.inl hid2.symm)
            · exact Or.inr ⟨g2, hrest, hT2, hid2⟩
      · have hgb : (g.gameType == 2) = false := by simpa using hg
        rw [hgb]
        simp only [Bool.false_eq_true, if_false]
        constructor
        · rintro (hacc | ⟨g2, hg2, hT2, hid2⟩)
          · exact Or.inl hacc
          · exact Or.inr ⟨g2, List.mem_cons_of_mem _ hg2, hT2, hid2⟩
        · rintro (hacc | ⟨g2, hg2, hT2, hid2⟩)
          · exact Or.inl hacc
          · rcases List.mem_cons.mp hg2 with rfl | hrest
            · exact absurd hT2 hg
            · exact Or.inr ⟨g2, hrest, hT2, hid2⟩
  simpa [fetch_team_schedule] using h games []

/-- C9: a failed team fetch contributes the empty dict (the call itself
returns normally), and the key set of the merged schedule is exactly the union
of the regular-season game ids of the successful teams, de-duplicated by key — so a
game of a failed team still appears when the schedule of some successful
(opponent) team lists it. -/
theorem schedule_union_dedup_spec (teams : List String)
    (fetchResult : String → Option (List ScheduleGame)) (gid : Nat) :
    fetch_team_schedule none = []
    ∧ (gid ∈ (get_all_unique_games teams fetchResult).map Prod.fst ↔
        ∃ team ∈ teams, ∃ games, fetchResult team = some games ∧
          ∃ g ∈ games, g.gameType = 2 ∧ g.id = gid) := by
  refine ⟨rfl, ?_⟩
  have h : ∀ (ts : List String) (acc : List (Nat × ScheduleEntry)),
      (∃ w, (gid, w) ∈ ts.foldl (fun unique_games team =>
          dictUpdate unique_games (fetch_team_schedule (fetchResult team))) acc) ↔
        (∃ w, (gid, w) ∈ acc) ∨ ∃ team ∈ ts, ∃ games, fetchResult team = some games ∧
          ∃ g ∈ games, g.gameType = 2 ∧ g.id = gid := by
    intro ts
    induction ts with
    | nil => intro acc; simp
    | cons t rest ih =>
      intro acc
      rw [List.foldl_cons, ih, exists_mem_dictUpdate]
      rcases hft : fetchResult t with _ | games
      · constructor
        · rintro ((hacc | hfetch) | ⟨team, hteam, hrest⟩)
          · exact Or.inl hacc
          · simp [fetch_team_schedule] at hfetch
          · exact Or.inr ⟨team, List.mem_cons_of_mem _ hteam, hrest⟩
        · rintro (hacc | ⟨team, hteam, gs, hgs, hmem⟩)
          · exact Or.inl (Or.inl hacc)
          · rcases List.mem_cons.mp hteam with rfl | hteam2
            · rw [hft] at hgs
              exact absurd hgs (by simp)
            · exact Or.inr ⟨team, hteam2, gs, hgs, hmem⟩
      · rw [exists_mem_fetch_team_schedule]
        constructor
        · rintro ((hacc | hfetch) | ⟨team, hteam, hrest⟩)
          · exact Or.inl hacc
          · exact Or.inr ⟨t, List.mem_cons_self _ _, games, hft, hfetch⟩
          · exact Or.inr ⟨team, List.mem_cons_of_mem _ hteam, hrest⟩
        · rintro (hacc | ⟨team, hteam, gs, hgs, hmem⟩)
          · exact Or.inl (Or.inl hacc)
          · rcases List.mem_cons.mp hteam with rfl | hteam2
            · rw [hft] at hgs
              cases hgs
              exact Or.inl (Or.inr hmem)
            · exact Or.inr ⟨team, hteam2, gs, hgs, hmem⟩
  have hmain := h teams []
  simp only [List.not_mem_nil, exists_false, false_or] at hmain
  rw [get_all_unique_games]
  constructor
  · intro hk
    apply hmain.mp
    rcases List.mem_map.mp hk with ⟨⟨k1, w⟩, hmem, hk1⟩
    exact ⟨w, by simpa [← hk1] using hmem⟩
  · intro hex
    rcases hmain.mpr hex with ⟨w, hw⟩
    exact List.mem_map.mpr ⟨(gid, w), hw, rfl⟩

/-- Membership in the rows contributed per game by the transform loop of
`_write_data_to_db`: a row arises exactly from an internal-cache entry whose game
id has a boxscore snapshot. -/
theorem mem_rows_of_games_iff {α : Type}
    (internal : List (Nat × List (Nat × FinalPlayerGameStats)))
    (boxmap : List (Nat × GameBoxscoreResponse))
    (rows_fn : GameBoxscoreResponse → List (Nat × FinalPlayerGameStats) → List α) (r : α) :
    (r ∈ (internal.filterMap (fun gp =>
        (alookup gp.1 boxmap).map (fun b => (gp.1, b, gp.2)))).flatMap
        (fun g => rows_fn g.2.1 g.2.2) ↔
      ∃ g ps b, (g, ps) ∈ internal ∧ alookup g boxmap = some b ∧ r ∈ rows_fn b ps) := by
  constructor
  · intro h
    rcases List.mem_flatMap.mp h with ⟨trip, htrip, hr⟩
    rcases List.mem_filterMap.mp htrip with ⟨gp, hgp, heq⟩
    rcases Option.map_eq_some'.mp heq with ⟨b, hb, htrip_eq⟩
    subst htrip_eq
    exact ⟨gp.1, gp.2, b, by rw [Prod.mk.eta]; exact hgp, hb, hr⟩
  · rintro ⟨g, ps, b, hmem, hlook, hr⟩
    exact List.mem_flatMap.mpr ⟨(g, b, ps),
      List.mem_filterMap.mpr ⟨(g, ps), hmem, by simp [hlook]⟩, hr⟩

/-- Membership in the incremental-update rows: additionally the game id must
be on the fresh-fetch list. -/
theorem mem_rows_of_fresh_games_iff {α : Type}
    (internal : List (Nat × List (Nat × FinalPlayerGameStats)))
    (boxmap : List (Nat × GameBoxscoreResponse)) (fresh : List Nat)
    (rows_fn : GameBoxscoreResponse → List (Nat × FinalPlayerGameStats) → List α) (r : α) :
    (r ∈ (internal.filterMap (fun gp =>
        (alookup gp.1 boxmap).map (fun b => (gp.1, b, gp.2)))).flatMap
        (fun g => if fresh.contains g.1 then rows_fn g.2.1 g.2.2 else []) ↔
      ∃ g ps b, fresh.contains g = true ∧ (g, ps) ∈ internal ∧
        alookup g boxmap = some b ∧ r ∈ rows_fn b ps) := by
  constructor
  · intro h
    rcases List.mem_flatMap.mp h with ⟨trip, htrip, hr⟩
    rcases List.mem_filterMap.mp htrip with ⟨gp, hgp, heq⟩
    rcases Option.map_eq_some'.mp heq with ⟨b, hb, htrip_eq⟩
    subst htrip_eq
    by_cases hc : fresh.contains gp.1
    · rw [if_pos hc] at hr
      exact ⟨gp.1, gp.2, b, hc, by rw [Prod.mk.eta]; exact hgp, hb, hr⟩
    · rw [if_neg hc] at hr
      exact absurd hr (List.not_mem_nil r)
  · rintro ⟨g, ps, b, hc, hmem, hlook, hr⟩
    refine List.mem_flatMap.mpr ⟨(g, b, ps),
      List.mem_filterMap.mpr ⟨(g, ps), hmem, by simp [hlook]⟩, ?_⟩
    rw [if_pos hc]
    exact hr

/-- C7: the rows of a game reach the incremental aggregate update only when that
game id is on the fresh-fetch list; with no fresh games both incremental
lists are empty and the incremental updater returns the aggregate table
unchanged, while the upsert row lists are the same as in any run (they do not
depend on the fresh-fetch partition). -/
theorem aggregate_update_only_fresh_games
    (internal : List (Nat × List (Nat × FinalPlayerGameStats)))
    (boxmap : List (Nat × GameBoxscoreResponse)) (fresh : List Nat)
    (db : List ProPlayers) (r : PlayerGameStats) (q : GoalieGameStats) :
    (r ∈ (write_data_transform internal boxmap fresh).skater_records_for_incremental_update ↔
      ∃ g ps b, fresh.contains g = true ∧ (g, ps) ∈ internal ∧
        alookup g boxmap = some b ∧ r ∈ skater_rows_of_game b ps)
    ∧ (q ∈ (write_data_transform internal boxmap fresh).goalie_records_for_incremental_update ↔
      ∃ g ps b, fresh.contains g = true ∧ (g, ps) ∈ internal ∧
        alookup g boxmap = some b ∧ q ∈ goalie_rows_of_game b ps)
    ∧ (write_data_transform internal boxmap []).skater_records_for_incremental_update = []
    ∧ (write_data_transform internal boxmap []).goalie_records_for_incremental_update = []
    ∧ update_pro_players_incrementally db [] [] = Except.ok db
    ∧ (write_data_transform internal boxmap fresh).skater_records_to_merge =
        (write_data_transform internal boxmap []).skater_records_to_merge
    ∧ (write_data_transform internal boxmap fresh).goalie_records_to_merge =
        (write_data_transform internal boxmap []).goalie_records_to_merge := by
  refine ⟨mem_rows_of_fresh_games_iff internal boxmap fresh skater_rows_of_game r,
    mem_rows_of_fresh_games_iff internal boxmap fresh goalie_rows_of_game q,
    ?_, ?_, rfl, rfl, rfl⟩
  · apply List.eq_nil_iff_forall_not_mem.mpr
    intro x hx
    rcases (mem_rows_of_fresh_games_iff internal boxmap [] skater_rows_of_game x).mp hx with
      ⟨g, ps, b, hc, -⟩
    simp at hc
  · apply List.eq_nil_iff_forall_not_mem.mpr
    intro x hx
    rcases (mem_rows_of_fresh_games_iff internal boxmap [] goalie_rows_of_game x).mp hx with
      ⟨g, ps, b, hc, -⟩
    simp at hc

/-- C1 (amended): a row is persisted by the transform loop exactly for a
record of an internal-cache game whose id has a boxscore snapshot, routed by
position; hence every record of a game with no snapshot (e.g. its boxscore
fetch failed) is dropped from both tables. -/
theorem persist_rows_iff_game_has_boxscore
    (internal : List (Nat × List (Nat × FinalPlayerGameStats)))
    (boxmap : List (Nat × GameBoxscoreResponse)) (fresh : List Nat)
    (r : PlayerGameStats) (q : GoalieGameStats) :
    (r ∈ (write_data_transform internal boxmap fresh).skater_records_to_merge ↔
      ∃ g ps b, (g, ps) ∈ internal ∧ alookup g boxmap = some b ∧
        r ∈ skater_rows_of_game b ps)
    ∧ (q ∈ (write_data_transform internal boxmap fresh).goalie_records_to_merge ↔
      ∃ g ps b, (g, ps) ∈ internal ∧ alookup g boxmap = some b ∧
        q ∈ goalie_rows_of_game b ps) :=
  ⟨mem_rows_of_games_iff internal boxmap skater_rows_of_game r,
    mem_rows_of_games_iff internal boxmap goalie_rows_of_game q⟩

/-- C1 counterexample: a record that never had origin-B (boxscore) fields
merged — it still carries placeholder position `"N/A"` — but whose game id
does have a boxscore snapshot, IS written by the persist transform: it lands
in the skater table (position `"N/A"` is not a goalie position), contradicting
the claim that such records are never persisted. -/
theorem unmerged_record_with_boxscore_is_persisted :
    ((write_data_transform [(1, [(2, c1UnmergedRecord)])] [(1, witnessBoxscore)]
        [1]).skater_records_to_merge.map
      (fun r => (r.game_id, r.player_id, r.position))) = [(1, 2, some ("N/A"))]
    ∧ (write_data_transform [(1, [(2, c1UnmergedRecord)])] [(1, witnessBoxscore)]
        [1]).goalie_records_to_merge = [] := by
  exact ⟨by decide, by decide⟩

/-- C2 evidence (code bug): for a player who already has an aggregate row,
the updater as written — whose where clause is the Python `in` operator on the
column object, i.e. constant false — never sees the existing row: it creates
a fresh zeroed row, increments that (games played 0 → 1), and the
duplicate-primary-key insert makes the commit fail.  With the intended
membership filter the same input reads the existing row and yields games
played 5 → 6. -/
theorem incremental_update_ignores_existing_row :
    update_pro_players_incrementally [c2ExistingPlayer] [c2NewStat] [] =
      Except.error INTEGRITY_ERROR
    ∧ (update_pro_players_with_filter proPlayers_where_in_intended
        [c2ExistingPlayer] [c2NewStat] []).map
        (fun rows => rows.map (fun p => (p.player_id, p.season_games_played))) =
      Except.ok [(100, 6)] := by
  exact ⟨rfl, rfl⟩

/-- C3 evidence (code bug): ingesting two games of one player incrementally,
one update per game starting from an empty aggregate table, fails at the
second step — the constant-false where clause hides the row the first step
inserted, so the updater creates a second fresh row for the same primary key
and the commit errors — whereas the full-rebuild path over the same two game
rows yields a games-played total of 2.  The claimed numeric identity of the
two paths therefore fails. -/
theorem incremental_and_rebuild_disagree :
    ((update_pro_players_incrementally [] [c3Game1Row] []).bind
      (fun db1 => update_pro_players_incrementally db1 [c3Game2Row] [])) =
        Except.error INTEGRITY_ERROR
    ∧ (calculate_season_totals_skater [c3Game1Row, c3Game2Row] 500).season_games_played = 2 := by
  exact ⟨rfl, rfl⟩

end NHLFantasy
